import Mathlib

/-!
Shallow embedding of the verification-code engine of the flight_booking
repository: the phone-OTP flow (`OTPService`, backed by
`SMSService.generateOTP`) and the email flow (`EmailVerificationService`,
backed by `EmailService.generateVerificationCode`), together with proofs
of the specified properties.

Modelling conventions:
* Times are naturals (milliseconds since the epoch); the ambient
  `new Date()` / `Date.now()` reads become an explicit `now` argument.
* The per-class `Map<string, Record>` storage becomes a function
  `String → Option Record`; `Map.set` / `Map.delete` become pointwise
  function updates, and the sweep over all entries becomes a pointwise
  filter (same observable get/set/delete semantics).
* `Math.floor(100000 + Math.random() * 900000)` draws an integer in
  `[0, 900000)`; the draw is passed explicitly as `k : Fin 900000`.
* The SMS / email delivery outcome is passed as an explicit boolean
  (`true` = the adapter reported success).
* The `{success, error?, message?}` results are modelled by inductives
  with one constructor per distinct return site.
-/

/-- In-memory keyed storage: the embedding of `Map<string, α>`. -/
def Store (α : Type) : Type := String → Option α

/-- `Map.prototype.set` for a single key. -/
def Store.set {α : Type} (s : Store α) (key : String) (r : α) : Store α :=
  fun q => if q = key then some r else s q

/-- `Map.prototype.delete` for a single key. -/
def Store.delete {α : Type} (s : Store α) (key : String) : Store α :=
  fun q => if q = key then none else s q

/-- `Map.prototype.get`. -/
def Store.get {α : Type} (s : Store α) (key : String) : Option α := s key

/-- The empty map. -/
def Store.empty {α : Type} : Store α := fun _ => none

/-- JavaScript `String.prototype.trim`: strip leading and trailing
whitespace (structural model over the character list). -/
def jsTrim (s : String) : String :=
  ⟨((s.data.dropWhile Char.isWhitespace).reverse.dropWhile Char.isWhitespace).reverse⟩

/-- JavaScript `String.prototype.toLowerCase` (ASCII case mapping,
structural model over the character list). -/
def jsToLowerCase (s : String) : String :=
  ⟨s.data.map Char.toLower⟩

/-- Result of a `sendOTP` / `sendVerificationCode` style issuance call,
one constructor per distinct return site of the source. -/
inductive SendResult : Type where
  /-- "already sent, please wait n minutes" (rate limiting). -/
  | rateLimited (remainingMinutes : Nat)
  /-- the delivery adapter reported failure; the record was rolled back. -/
  | deliveryFailed
  /-- success. -/
  | sent
deriving Repr, DecidableEq

/-- Result of a `verifyOTP` / `verifyCode` style verification call,
one constructor per distinct return site of the source. -/
inductive VerifyResult : Type where
  | notFound
  | expired
  | alreadyUsed
  | maxAttemptsExceeded
  /-- wrong code; `remaining` is the advertised number of attempts left
  (the source prints "maximum attempts exceeded" when it is zero). -/
  | mismatch (remaining : Nat)
  | ok
deriving Repr, DecidableEq

namespace SMSService

/-- `SMSService.generateOTP`:
`Math.floor(100000 + Math.random() * 900000).toString()`.
`k` is the integer drawn from `[0, 900000)`. -/
def generateOTP (k : Fin 900000) : String :=
  toString (100000 + k.val)

end SMSService

namespace EmailService

/-- `EmailService.generateVerificationCode`:
`Math.floor(100000 + Math.random() * 900000).toString()`.
`k` is the integer drawn from `[0, 900000)`. -/
def generateVerificationCode (k : Fin 900000) : String :=
  toString (100000 + k.val)

end EmailService

/-- The `OTPRecord` interface of `otpService.ts`. -/
structure OTPRecord : Type where
  phone : String
  otp : String
  expiresAt : Nat
  attempts : Nat
  verified : Bool
deriving Repr, DecidableEq

namespace OTPService

/-- `OTP_EXPIRY_MINUTES = 5`. -/
def OTP_EXPIRY_MINUTES : Nat := 5

/-- `MAX_ATTEMPTS = 3`. -/
def MAX_ATTEMPTS : Nat := 3

/-- `isExpired(record)`: `new Date() > record.expiresAt`. -/
def isExpired (now : Nat) (r : OTPRecord) : Bool :=
  decide (now > r.expiresAt)

/-- `cleanupExpiredOTPs()`: delete every record with `now > expiresAt`. -/
def cleanupExpiredOTPs (now : Nat) (s : Store OTPRecord) : Store OTPRecord :=
  fun q =>
    match s q with
    | some r => if now > r.expiresAt then none else some r
    | none => none

/-- The tail of `sendOTP` past the rate-limit check: generate, store,
hand to the SMS adapter, roll back if delivery failed.  `phone` is the
already-formatted number used as the storage key. -/
def issueNew (now : Nat) (s : Store OTPRecord) (phone : String)
    (k : Fin 900000) (smsOk : Bool) : SendResult × Store OTPRecord :=
  let otp := SMSService.generateOTP k
  let expiresAt := now + OTP_EXPIRY_MINUTES * 60 * 1000
  let s2 := s.set phone ⟨phone, otp, expiresAt, 0, false⟩
  if smsOk then (.sent, s2) else (.deliveryFailed, s2.delete phone)

/-- `sendOTP(phoneNumber)`.  `phone` is the formatted number
(`SMSService.formatPhoneNumber` is applied by the caller side of the
embedding), `k` the random draw, `smsOk` the delivery outcome. -/
def sendOTP (now : Nat) (s : Store OTPRecord) (phone : String)
    (k : Fin 900000) (smsOk : Bool) : SendResult × Store OTPRecord :=
  let s1 := cleanupExpiredOTPs now s
  match s1.get phone with
  | some r =>
    if isExpired now r then issueNew now s1 phone k smsOk
    else
      (.rateLimited ((r.expiresAt - now + 59999) / 60000), s1)
  | none => issueNew now s1 phone k smsOk

/-- `verifyOTP(phoneNumber, otp)`; `phone` is the formatted number. -/
def verifyOTP (now : Nat) (s : Store OTPRecord) (phone otp : String) :
    VerifyResult × Store OTPRecord :=
  match s.get phone with
  | none => (.notFound, s)
  | some r =>
    if isExpired now r then (.expired, s.delete phone)
    else if r.verified then (.alreadyUsed, s)
    else if r.attempts ≥ MAX_ATTEMPTS then (.maxAttemptsExceeded, s.delete phone)
    else
      let r1 : OTPRecord := { r with attempts := r.attempts + 1 }
      if r1.otp ≠ otp then (.mismatch (MAX_ATTEMPTS - r1.attempts), s.set phone r1)
      else (.ok, s.set phone { r1 with verified := true })

/-- `clearOTP(phoneNumber)`. -/
def clearOTP (s : Store OTPRecord) (phone : String) : Store OTPRecord :=
  s.delete phone

end OTPService

/-- The `EmailVerificationRecord` interface of `emailVerificationService.ts`
(`userId` is optional and never written by the embedded operations). -/
structure EmailVerificationRecord : Type where
  email : String
  code : String
  expiresAt : Nat
  attempts : Nat
  verified : Bool
  userId : Option String := none
deriving Repr, DecidableEq

namespace EmailVerificationService

/-- `CODE_EXPIRY_MINUTES = 15`. -/
def CODE_EXPIRY_MINUTES : Nat := 15

/-- `MAX_ATTEMPTS = 5`. -/
def MAX_ATTEMPTS : Nat := 5

/-- `email.toLowerCase().trim()`. -/
def normalizeEmail (email : String) : String :=
  jsTrim (jsToLowerCase email)

/-- `isExpired(record)`: `new Date() > record.expiresAt`. -/
def isExpired (now : Nat) (r : EmailVerificationRecord) : Bool :=
  decide (now > r.expiresAt)

/-- `cleanupExpiredCodes()`: delete every record with `now > expiresAt`. -/
def cleanupExpiredCodes (now : Nat) (s : Store EmailVerificationRecord) :
    Store EmailVerificationRecord :=
  fun q =>
    match s q with
    | some r => if now > r.expiresAt then none else some r
    | none => none

/-- `verifyCode(email, code)`. -/
def verifyCode (now : Nat) (s : Store EmailVerificationRecord)
    (email code : String) : VerifyResult × Store EmailVerificationRecord :=
  let key := normalizeEmail email
  match s.get key with
  | none => (.notFound, s)
  | some r =>
    if isExpired now r then (.expired, s.delete key)
    else if r.verified then (.alreadyUsed, s)
    else if r.attempts ≥ MAX_ATTEMPTS then (.maxAttemptsExceeded, s.delete key)
    else
      let r1 : EmailVerificationRecord := { r with attempts := r.attempts + 1 }
      if r1.code ≠ jsTrim code then (.mismatch (MAX_ATTEMPTS - r1.attempts), s.set key r1)
      else (.ok, s.set key { r1 with verified := true })

/-- The tail of `sendPasswordResetCode` past the rate-limit check. -/
def issueReset (now : Nat) (s : Store EmailVerificationRecord) (key email : String)
    (k : Fin 900000) (emailOk : Bool) : SendResult × Store EmailVerificationRecord :=
  let code := EmailService.generateVerificationCode k
  let expiresAt := now + CODE_EXPIRY_MINUTES * 60 * 1000
  let s2 := s.set key ⟨email, code, expiresAt, 0, false, none⟩
  if emailOk then (.sent, s2) else (.deliveryFailed, s2.delete key)

/-- `sendPasswordResetCode(email)`: the reset record lives under the
key `"reset_" ++ normalizedEmail`.  `k` is the random draw, `emailOk`
the delivery outcome. -/
def sendPasswordResetCode (now : Nat) (s : Store EmailVerificationRecord)
    (email : String) (k : Fin 900000) (emailOk : Bool) :
    SendResult × Store EmailVerificationRecord :=
  let s1 := cleanupExpiredCodes now s
  let key := "reset_" ++ normalizeEmail email
  match s1.get key with
  | some r =>
    if isExpired now r then issueReset now s1 key (normalizeEmail email) k emailOk
    else
      (.rateLimited ((r.expiresAt - now + 59999) / 60000), s1)
  | none => issueReset now s1 key (normalizeEmail email) k emailOk

/-- `verifyPasswordResetCode(email, code)`.  Note: unlike `verifyCode`
and `verifyOTP`, the source has no `record.verified` check here. -/
def verifyPasswordResetCode (now : Nat) (s : Store EmailVerificationRecord)
    (email code : String) : VerifyResult × Store EmailVerificationRecord :=
  let key := "reset_" ++ normalizeEmail email
  match s.get key with
  | none => (.notFound, s)
  | some r =>
    if isExpired now r then (.expired, s.delete key)
    else if r.attempts ≥ MAX_ATTEMPTS then (.maxAttemptsExceeded, s.delete key)
    else
      let r1 : EmailVerificationRecord := { r with attempts := r.attempts + 1 }
      if r1.code ≠ jsTrim code then (.mismatch (MAX_ATTEMPTS - r1.attempts), s.set key r1)
      else (.ok, s.set key { r1 with verified := true })

end EmailVerificationService

namespace VerificationPolicy

/-- Modelled from the spec (§4.3), for comparison with the source's
`verifyOTP`: "Order of checks: absent → `NotFound`; expired → delete,
return `Expired`; consumed → `AlreadyConsumed`; `attempts ≥ maxAttempts`
→ delete, return `MaxAttemptsExceeded`; otherwise increment `attempts`
*before* comparing; match → set `consumed=true`, return `Ok`;
mismatch → `Mismatch{remaining: maxAttempts-attempts}`." -/
def verify (maxAttempts now : Nat) (s : Store OTPRecord) (key code : String) :
    VerifyResult × Store OTPRecord :=
  match s.get key with
  | none => (.notFound, s)
  | some r =>
    if now > r.expiresAt then (.expired, s.delete key)
    else if r.verified then (.alreadyUsed, s)
    else if r.attempts ≥ maxAttempts then (.maxAttemptsExceeded, s.delete key)
    else
      let attempts := r.attempts + 1
      if r.otp = code then
        (.ok, s.set key { r with attempts := attempts, verified := true })
      else
        (.mismatch (maxAttempts - attempts), s.set key { r with attempts := attempts })

/-- Modelled from the spec (§4.3), same check order as
`VerificationPolicy.verify` but on email-flow records, for comparison
with the source's `verifyCode` (which receives the normalized key and
the trimmed submitted code). -/
def verifyEmail (maxAttempts now : Nat) (s : Store EmailVerificationRecord)
    (key code : String) : VerifyResult × Store EmailVerificationRecord :=
  match s.get key with
  | none => (.notFound, s)
  | some r =>
    if now > r.expiresAt then (.expired, s.delete key)
    else if r.verified then (.alreadyUsed, s)
    else if r.attempts ≥ maxAttempts then (.maxAttemptsExceeded, s.delete key)
    else
      let attempts := r.attempts + 1
      if r.code = code then
        (.ok, s.set key { r with attempts := attempts, verified := true })
      else
        (.mismatch (maxAttempts - attempts), s.set key { r with attempts := attempts })

end VerificationPolicy

/-! ### Basic store lemmas -/

theorem Store.get_set_self {α : Type} (s : Store α) (key : String) (r : α) :
    (s.set key r).get key = some r := by
  simp [Store.set, Store.get]

theorem Store.get_delete_self {α : Type} (s : Store α) (key : String) :
    (s.delete key).get key = none := by
  simp [Store.delete, Store.get]

theorem OTPService.cleanup_get_of_unexpired {now : Nat} {s : Store OTPRecord}
    {key : String} {r : OTPRecord} (h : s.get key = some r)
    (hexp : ¬ now > r.expiresAt) :
    (OTPService.cleanupExpiredOTPs now s).get key = some r := by
  simp only [Store.get, OTPService.cleanupExpiredOTPs] at h ⊢
  rw [h]
  simp [hexp]

theorem OTPService.cleanup_get_none {now : Nat} {s : Store OTPRecord}
    {key : String}
    (h : ∀ r, s.get key = some r → OTPService.isExpired now r = true) :
    (OTPService.cleanupExpiredOTPs now s).get key = none := by
  simp only [Store.get, OTPService.cleanupExpiredOTPs] at h ⊢
  cases hs : s key with
  | none => rfl
  | some r =>
    have hr := h r hs
    simp only [OTPService.isExpired, decide_eq_true_eq] at hr
    simp [hr]

/-! ### C1: order of checks in the verify operation -/

/-- C1: for every store state, key, and submitted code, the verify
operation (`verifyOTP` and `verifyCode`) applies its checks in the
spec's order — absent → not-found; expired → delete and expired
failure; already verified → already-used failure; `attempts ≥
maxAttempts` → delete and max-attempts failure; otherwise increment
`attempts` before comparing, marking the record consumed and returning
success on equality, and returning a mismatch failure reporting
`maxAttempts - attempts` remaining on inequality.  Stated as an exact
refinement of the spec-side `VerificationPolicy` definitions. -/
theorem claim_C1_verify_check_order :
    (∀ (now : Nat) (s : Store OTPRecord) (phone code : String),
        OTPService.verifyOTP now s phone code =
          VerificationPolicy.verify OTPService.MAX_ATTEMPTS now s phone code) ∧
    (∀ (now : Nat) (s : Store EmailVerificationRecord) (email code : String),
        EmailVerificationService.verifyCode now s email code =
          VerificationPolicy.verifyEmail EmailVerificationService.MAX_ATTEMPTS now s
            (EmailVerificationService.normalizeEmail email) (jsTrim code)) := by
  constructor
  · intro now s phone code
    unfold OTPService.verifyOTP VerificationPolicy.verify
    cases hs : s.get phone with
    | none => rfl
    | some r =>
      by_cases hexp : now > r.expiresAt
      · simp [OTPService.isExpired, hexp]
      · by_cases hver : r.verified
        · simp [OTPService.isExpired, hexp, hver]
        · by_cases hatt : r.attempts ≥ OTPService.MAX_ATTEMPTS
          · simp [OTPService.isExpired, hexp, hver, hatt]
          · by_cases hcode : r.otp = code
            · simp [OTPService.isExpired, hexp, hver, hatt, hcode]
            · simp [OTPService.isExpired, hexp, hver, hatt, hcode]
  · intro now s email code
    unfold EmailVerificationService.verifyCode VerificationPolicy.verifyEmail
    dsimp only
    cases hs : s.get (EmailVerificationService.normalizeEmail email) with
    | none => rfl
    | some r =>
      by_cases hexp : now > r.expiresAt
      · simp [EmailVerificationService.isExpired, hexp]
      · by_cases hver : r.verified
        · simp [EmailVerificationService.isExpired, hexp, hver]
        · by_cases hatt : r.attempts ≥ EmailVerificationService.MAX_ATTEMPTS
          · simp [EmailVerificationService.isExpired, hexp, hver, hatt]
          · by_cases hcode : r.code = jsTrim code
            · simp [EmailVerificationService.isExpired, hexp, hver, hatt, hcode]
            · simp [EmailVerificationService.isExpired, hexp, hver, hatt, hcode]

/-! ### C5: expired records never verify -/

/-- C5: for every record whose `expiresAt` lies strictly in the past, a
verify call with any submitted code — including the stored correct code
— never returns success: the first verify after expiry deletes the
record and returns the expired failure, and any later verify for that
key returns the not-found failure. -/
theorem claim_C5_expired_never_ok (now : Nat) (s : Store OTPRecord)
    (phone code : String) (r : OTPRecord)
    (hs : s.get phone = some r) (hexp : r.expiresAt < now) :
    OTPService.verifyOTP now s phone code = (.expired, s.delete phone) ∧
    (∀ (now2 : Nat) (code2 : String),
        OTPService.verifyOTP now2 (s.delete phone) phone code2 =
          (.notFound, s.delete phone)) ∧
    (OTPService.verifyOTP now s phone code).1 ≠ .ok := by
  have h1 : OTPService.verifyOTP now s phone code = (.expired, s.delete phone) := by
    unfold OTPService.verifyOTP
    rw [hs]
    simp [OTPService.isExpired, hexp]
  refine ⟨h1, ?_, by rw [h1]; simp⟩
  intro now2 code2
  unfold OTPService.verifyOTP
  rw [Store.get_delete_self]

/-- Witness for C5 at a concrete expired record. -/
theorem claim_C5_witness :
    OTPService.verifyOTP 200 (Store.empty.set "+15550001111" ⟨"+15550001111", "482913", 100, 0, false⟩)
        "+15550001111" "482913" =
      (.expired, (Store.empty.set "+15550001111" ⟨"+15550001111", "482913", 100, 0, false⟩).delete "+15550001111") :=
  (claim_C5_expired_never_ok 200
    (Store.empty.set "+15550001111" ⟨"+15550001111", "482913", 100, 0, false⟩)
    "+15550001111" "482913" ⟨"+15550001111", "482913", 100, 0, false⟩
    (by decide) (by decide)).1

/-! ### C9: a consumed but unexpired record still blocks re-issuance -/

/-- C9: for every key whose record is marked verified but not yet
expired, a new issuance request is rejected with the rate-limited
failure and the stored record is left in place — the rate-limit check
does not consult the verified flag. -/
theorem claim_C9_consumed_blocks_reissue (now : Nat) (s : Store OTPRecord)
    (phone : String) (r : OTPRecord) (k : Fin 900000) (smsOk : Bool)
    (hs : s.get phone = some r) (hver : r.verified = true)
    (hexp : ¬ now > r.expiresAt) :
    (OTPService.sendOTP now s phone k smsOk).1 =
      .rateLimited ((r.expiresAt - now + 59999) / 60000) ∧
    (OTPService.sendOTP now s phone k smsOk).2.get phone = some r := by
  have hc := OTPService.cleanup_get_of_unexpired hs hexp
  unfold OTPService.sendOTP
  dsimp only
  rw [hc]
  simp [OTPService.isExpired, hexp, hc]

/-- Witness for C9: a verified, unexpired record still rate-limits. -/
theorem claim_C9_witness :
    (OTPService.sendOTP 0 (Store.empty.set "+15550001111" ⟨"+15550001111", "482913", 300000, 1, true⟩)
        "+15550001111" ⟨0, by decide⟩ true).1 =
      .rateLimited ((300000 - 0 + 59999) / 60000) :=
  (claim_C9_consumed_blocks_reissue 0
    (Store.empty.set "+15550001111" ⟨"+15550001111", "482913", 300000, 1, true⟩)
    "+15550001111" ⟨"+15550001111", "482913", 300000, 1, true⟩ ⟨0, by decide⟩ true
    (by decide) (by decide) (by decide)).1

/-! ### C10: expiry is strict -/

/-- C10: a record whose `expiresAt` equals the current time exactly is
still live: `isExpired` uses strict `now > expiresAt`, a verify at that
instant with the correct code can still succeed, and the cleanup sweep
removes exactly the records with `expiresAt` strictly before `now`. -/
theorem claim_C10_strict_expiry (now : Nat) (r : OTPRecord)
    (hnow : r.expiresAt = now) :
    OTPService.isExpired now r = false ∧
    (∀ (s : Store OTPRecord) (phone : String),
        s.get phone = some r → r.verified = false →
        r.attempts < OTPService.MAX_ATTEMPTS →
        (OTPService.verifyOTP now s phone r.otp).1 = .ok) ∧
    (∀ (s : Store OTPRecord) (key : String) (r2 : OTPRecord),
        s.get key = some r2 → now ≤ r2.expiresAt →
        (OTPService.cleanupExpiredOTPs now s).get key = some r2) ∧
    (∀ (s : Store OTPRecord) (key : String) (r2 : OTPRecord),
        s.get key = some r2 → r2.expiresAt < now →
        (OTPService.cleanupExpiredOTPs now s).get key = none) := by
  refine ⟨by simp [OTPService.isExpired, hnow], ?_, ?_, ?_⟩
  · intro s phone hs hver hatt
    unfold OTPService.verifyOTP
    rw [hs]
    simp [OTPService.isExpired, hnow, hver, Nat.not_le_of_lt hatt]
  · intro s key r2 hs hle
    exact OTPService.cleanup_get_of_unexpired hs (Nat.not_lt_of_le hle)
  · intro s key r2 hs hlt
    apply OTPService.cleanup_get_none
    intro r3 hr3
    rw [hs] at hr3
    cases hr3
    simp [OTPService.isExpired, hlt]

/-- Witness for C10 at a record expiring exactly now. -/
theorem claim_C10_witness :
    OTPService.isExpired 300000 (⟨"+15550001111", "482913", 300000, 0, false⟩ : OTPRecord) = false :=
  (claim_C10_strict_expiry 300000 ⟨"+15550001111", "482913", 300000, 0, false⟩ (by decide)).1

/-! ### Case lemmas for `verifyOTP` and `verifyCode` -/

theorem OTPService.verifyOTP_notFound (now : Nat) (s : Store OTPRecord)
    (phone code : String) (h : s.get phone = none) :
    OTPService.verifyOTP now s phone code = (.notFound, s) := by
  unfold OTPService.verifyOTP
  rw [h]

theorem OTPService.verifyOTP_expired (now : Nat) (s : Store OTPRecord)
    (phone code : String) (r : OTPRecord)
    (h : s.get phone = some r) (hexp : now > r.expiresAt) :
    OTPService.verifyOTP now s phone code = (.expired, s.delete phone) := by
  unfold OTPService.verifyOTP
  rw [h]
  simp [OTPService.isExpired, hexp]

theorem OTPService.verifyOTP_alreadyUsed (now : Nat) (s : Store OTPRecord)
    (phone code : String) (r : OTPRecord)
    (h : s.get phone = some r) (hexp : ¬ now > r.expiresAt)
    (hver : r.verified = true) :
    OTPService.verifyOTP now s phone code = (.alreadyUsed, s) := by
  unfold OTPService.verifyOTP
  rw [h]
  simp [OTPService.isExpired, hexp, hver]

theorem OTPService.verifyOTP_cap (now : Nat) (s : Store OTPRecord)
    (phone code : String) (r : OTPRecord)
    (h : s.get phone = some r) (hexp : ¬ now > r.expiresAt)
    (hver : r.verified = false) (hatt : OTPService.MAX_ATTEMPTS ≤ r.attempts) :
    OTPService.verifyOTP now s phone code = (.maxAttemptsExceeded, s.delete phone) := by
  unfold OTPService.verifyOTP
  rw [h]
  simp [OTPService.isExpired, hexp, hver, hatt]

theorem OTPService.verifyOTP_wrong (now : Nat) (s : Store OTPRecord)
    (phone code : String) (r : OTPRecord)
    (h : s.get phone = some r) (hexp : ¬ now > r.expiresAt)
    (hver : r.verified = false) (hatt : r.attempts < OTPService.MAX_ATTEMPTS)
    (hcode : r.otp ≠ code) :
    OTPService.verifyOTP now s phone code =
      (.mismatch (OTPService.MAX_ATTEMPTS - (r.attempts + 1)),
       s.set phone { r with attempts := r.attempts + 1 }) := by
  unfold OTPService.verifyOTP
  rw [h]
  simp [OTPService.isExpired, hexp, hver, Nat.not_le_of_lt hatt, hcode]

theorem OTPService.verifyOTP_correct (now : Nat) (s : Store OTPRecord)
    (phone code : String) (r : OTPRecord)
    (h : s.get phone = some r) (hexp : ¬ now > r.expiresAt)
    (hver : r.verified = false) (hatt : r.attempts < OTPService.MAX_ATTEMPTS)
    (hcode : r.otp = code) :
    OTPService.verifyOTP now s phone code =
      (.ok, s.set phone { r with attempts := r.attempts + 1, verified := true }) := by
  unfold OTPService.verifyOTP
  rw [h]
  simp [OTPService.isExpired, hexp, hver, Nat.not_le_of_lt hatt, hcode]

theorem EmailVerificationService.verifyCode_expired (now : Nat)
    (s : Store EmailVerificationRecord) (email code : String)
    (r : EmailVerificationRecord)
    (h : s.get (EmailVerificationService.normalizeEmail email) = some r)
    (hexp : now > r.expiresAt) :
    EmailVerificationService.verifyCode now s email code =
      (.expired, s.delete (EmailVerificationService.normalizeEmail email)) := by
  unfold EmailVerificationService.verifyCode
  dsimp only
  rw [h]
  simp [EmailVerificationService.isExpired, hexp]

theorem EmailVerificationService.verifyCode_alreadyUsed (now : Nat)
    (s : Store EmailVerificationRecord) (email code : String)
    (r : EmailVerificationRecord)
    (h : s.get (EmailVerificationService.normalizeEmail email) = some r)
    (hexp : ¬ now > r.expiresAt) (hver : r.verified = true) :
    EmailVerificationService.verifyCode now s email code = (.alreadyUsed, s) := by
  unfold EmailVerificationService.verifyCode
  dsimp only
  rw [h]
  simp [EmailVerificationService.isExpired, hexp, hver]

theorem EmailVerificationService.verifyCode_cap (now : Nat)
    (s : Store EmailVerificationRecord) (email code : String)
    (r : EmailVerificationRecord)
    (h : s.get (EmailVerificationService.normalizeEmail email) = some r)
    (hexp : ¬ now > r.expiresAt) (hver : r.verified = false)
    (hatt : EmailVerificationService.MAX_ATTEMPTS ≤ r.attempts) :
    EmailVerificationService.verifyCode now s email code =
      (.maxAttemptsExceeded, s.delete (EmailVerificationService.normalizeEmail email)) := by
  unfold EmailVerificationService.verifyCode
  dsimp only
  rw [h]
  simp [EmailVerificationService.isExpired, hexp, hver, hatt]

theorem EmailVerificationService.verifyCode_wrong (now : Nat)
    (s : Store EmailVerificationRecord) (email code : String)
    (r : EmailVerificationRecord)
    (h : s.get (EmailVerificationService.normalizeEmail email) = some r)
    (hexp : ¬ now > r.expiresAt) (hver : r.verified = false)
    (hatt : r.attempts < EmailVerificationService.MAX_ATTEMPTS)
    (hcode : r.code ≠ jsTrim code) :
    EmailVerificationService.verifyCode now s email code =
      (.mismatch (EmailVerificationService.MAX_ATTEMPTS - (r.attempts + 1)),
       s.set (EmailVerificationService.normalizeEmail email) { r with attempts := r.attempts + 1 }) := by
  unfold EmailVerificationService.verifyCode
  dsimp only
  rw [h]
  simp [EmailVerificationService.isExpired, hexp, hver, Nat.not_le_of_lt hatt, hcode]

theorem EmailVerificationService.verifyCode_correct (now : Nat)
    (s : Store EmailVerificationRecord) (email code : String)
    (r : EmailVerificationRecord)
    (h : s.get (EmailVerificationService.normalizeEmail email) = some r)
    (hexp : ¬ now > r.expiresAt) (hver : r.verified = false)
    (hatt : r.attempts < EmailVerificationService.MAX_ATTEMPTS)
    (hcode : r.code = jsTrim code) :
    EmailVerificationService.verifyCode now s email code =
      (.ok, s.set (EmailVerificationService.normalizeEmail email)
              { r with attempts := r.attempts + 1, verified := true }) := by
  unfold EmailVerificationService.verifyCode
  dsimp only
  rw [h]
  simp [EmailVerificationService.isExpired, hexp, hver, Nat.not_le_of_lt hatt, hcode]

/-! ### C2: exactly-once consumption -/

/-- Counterexample to C2 as stated: in the password-reset flow, a second
`verifyPasswordResetCode` with the already-consumed correct code returns
success again (the source has no `verified` check there), not the
already-used failure. -/
theorem claim_C2_counterexample :
    (let s0 : Store EmailVerificationRecord :=
       Store.empty.set "reset_a@b.c" ⟨"a@b.c", "123456", 100, 0, false, none⟩;
     (EmailVerificationService.verifyPasswordResetCode 0 s0 "a@b.c" "123456").1 =
       VerifyResult.ok ∧
     (EmailVerificationService.verifyPasswordResetCode 0 s0 "a@b.c" "123456").2.get
         "reset_a@b.c" = some ⟨"a@b.c", "123456", 100, 1, true, none⟩ ∧
     (EmailVerificationService.verifyPasswordResetCode 0
        (EmailVerificationService.verifyPasswordResetCode 0 s0 "a@b.c" "123456").2
        "a@b.c" "123456").1 = VerifyResult.ok) := by
  decide

/-- C2 amended: the exactly-once consumption property holds for the
phone-OTP flow (`verifyOTP`) and the email-verification flow
(`verifyCode`): a successful verify marks the record consumed, and while
a consumed record is unexpired every verify on it returns the
already-used failure and leaves the store unchanged (so it never
succeeds again).  The password-reset flow's `verifyPasswordResetCode` is
excluded: it lacks the consumed check. -/
theorem claim_C2_consumed_once :
    (∀ (now : Nat) (s : Store OTPRecord) (phone : String) (r : OTPRecord),
        s.get phone = some r → ¬ now > r.expiresAt → r.verified = false →
        r.attempts < OTPService.MAX_ATTEMPTS →
        OTPService.verifyOTP now s phone r.otp =
          (.ok, s.set phone { r with attempts := r.attempts + 1, verified := true })) ∧
    (∀ (now : Nat) (t : Store OTPRecord) (phone code : String) (r : OTPRecord),
        t.get phone = some r → ¬ now > r.expiresAt → r.verified = true →
        OTPService.verifyOTP now t phone code = (.alreadyUsed, t)) ∧
    (∀ (now : Nat) (s : Store EmailVerificationRecord) (email code : String)
        (r : EmailVerificationRecord),
        s.get (EmailVerificationService.normalizeEmail email) = some r →
        ¬ now > r.expiresAt → r.verified = false →
        r.attempts < EmailVerificationService.MAX_ATTEMPTS → r.code = jsTrim code →
        EmailVerificationService.verifyCode now s email code =
          (.ok, s.set (EmailVerificationService.normalizeEmail email)
                  { r with attempts := r.attempts + 1, verified := true })) ∧
    (∀ (now : Nat) (t : Store EmailVerificationRecord) (email code : String)
        (r : EmailVerificationRecord),
        t.get (EmailVerificationService.normalizeEmail email) = some r →
        ¬ now > r.expiresAt → r.verified = true →
        EmailVerificationService.verifyCode now t email code = (.alreadyUsed, t)) := by
  refine ⟨?_, ?_, ?_, ?_⟩
  · intro now s phone r hs hexp hver hatt
    exact OTPService.verifyOTP_correct now s phone r.otp r hs hexp hver hatt rfl
  · intro now t phone code r ht hexp hver
    exact OTPService.verifyOTP_alreadyUsed now t phone code r ht hexp hver
  · intro now s email code r hs hexp hver hatt hcode
    exact EmailVerificationService.verifyCode_correct now s email code r hs hexp hver hatt hcode
  · intro now t email code r ht hexp hver
    exact EmailVerificationService.verifyCode_alreadyUsed now t email code r ht hexp hver

/-- Witness for C2 (amended) at a concrete fresh record. -/
theorem claim_C2_witness :
    OTPService.verifyOTP 0
        (Store.empty.set "+15550001111" ⟨"+15550001111", "482913", 300000, 0, false⟩)
        "+15550001111" "482913" =
      (.ok, (Store.empty.set "+15550001111" ⟨"+15550001111", "482913", 300000, 0, false⟩).set
              "+15550001111" ⟨"+15550001111", "482913", 300000, 1, true⟩) :=
  claim_C2_consumed_once.1 0
    (Store.empty.set "+15550001111" ⟨"+15550001111", "482913", 300000, 0, false⟩)
    "+15550001111" ⟨"+15550001111", "482913", 300000, 0, false⟩
    (by decide) (by decide) (by decide) (by decide)

/-! ### C3: behaviour at the attempt cap -/

/-- Counterexample to C3 as stated: after `MAX_ATTEMPTS = 3` consecutive
wrong guesses the record is still in the store (with `attempts = 3`);
it is only removed by the *next* call.  So neither variant (a) (the
crossing call returns the max-attempts failure) nor variant (b) holds:
the crossing call returns a mismatch failure with 0 remaining. -/
theorem claim_C3_counterexample :
    (let s0 : Store OTPRecord :=
       Store.empty.set "+15550001111" ⟨"+15550001111", "482913", 300000, 0, false⟩;
     let v1 := OTPService.verifyOTP 0 s0 "+15550001111" "000000";
     let v2 := OTPService.verifyOTP 0 v1.2 "+15550001111" "000000";
     let v3 := OTPService.verifyOTP 0 v2.2 "+15550001111" "000000";
     v1.1 = VerifyResult.mismatch 2 ∧ v2.1 = VerifyResult.mismatch 1 ∧
     v3.1 = VerifyResult.mismatch 0 ∧
     v3.2.get "+15550001111" = some ⟨"+15550001111", "482913", 300000, 3, false⟩) := by
  decide

/-- C3 amended: starting from a fresh unexpired record, `MAX_ATTEMPTS`
consecutive wrong guesses leave the record stored with `attempts =
MAX_ATTEMPTS`, and the crossing (third) call returns a mismatch failure
with 0 remaining; the *next* verify call (with any code) deletes the
record and returns the max-attempts failure, and all later calls return
not-found — variant (a) of the spec displaced by one call. -/
theorem claim_C3_attempt_cap (now : Nat) (s : Store OTPRecord)
    (key c1 c2 c3 c4 c5 : String) (r : OTPRecord)
    (hs : s.get key = some r) (hexp : ¬ now > r.expiresAt)
    (hver : r.verified = false) (hatt : r.attempts = 0)
    (h1 : r.otp ≠ c1) (h2 : r.otp ≠ c2) (h3 : r.otp ≠ c3) :
    (OTPService.verifyOTP now s key c1).1 = .mismatch 2 ∧
    (OTPService.verifyOTP now (OTPService.verifyOTP now s key c1).2 key c2).1 =
      .mismatch 1 ∧
    (OTPService.verifyOTP now
        (OTPService.verifyOTP now (OTPService.verifyOTP now s key c1).2 key c2).2
        key c3).1 = .mismatch 0 ∧
    (OTPService.verifyOTP now
        (OTPService.verifyOTP now (OTPService.verifyOTP now s key c1).2 key c2).2
        key c3).2.get key = some { r with attempts := 3 } ∧
    (OTPService.verifyOTP now
        (OTPService.verifyOTP now
          (OTPService.verifyOTP now (OTPService.verifyOTP now s key c1).2 key c2).2
          key c3).2 key c4).1 = .maxAttemptsExceeded ∧
    (OTPService.verifyOTP now
        (OTPService.verifyOTP now
          (OTPService.verifyOTP now (OTPService.verifyOTP now s key c1).2 key c2).2
          key c3).2 key c4).2.get key = none ∧
    (OTPService.verifyOTP now
        (OTPService.verifyOTP now
          (OTPService.verifyOTP now
            (OTPService.verifyOTP now (OTPService.verifyOTP now s key c1).2 key c2).2
            key c3).2 key c4).2 key c5).1 = .notFound := by
  have e1 := OTPService.verifyOTP_wrong now s key c1 r hs hexp hver
    (by rw [hatt]; decide) h1
  rw [hatt] at e1
  have g1 : (OTPService.verifyOTP now s key c1).2.get key =
      some { r with attempts := 1 } := by
    rw [e1]; exact Store.get_set_self _ _ _
  have e2 := OTPService.verifyOTP_wrong now (OTPService.verifyOTP now s key c1).2 key c2
    { r with attempts := 1 } g1 hexp hver (by simp [OTPService.MAX_ATTEMPTS]) h2
  have g2 : (OTPService.verifyOTP now (OTPService.verifyOTP now s key c1).2 key c2).2.get key =
      some { r with attempts := 2 } := by
    rw [e2]; exact Store.get_set_self _ _ _
  have e3 := OTPService.verifyOTP_wrong now _ key c3 { r with attempts := 2 }
    g2 hexp hver (by simp [OTPService.MAX_ATTEMPTS]) h3
  have g3 : (OTPService.verifyOTP now
      (OTPService.verifyOTP now (OTPService.verifyOTP now s key c1).2 key c2).2 key c3).2.get key =
      some { r with attempts := 3 } := by
    rw [e3]; exact Store.get_set_self _ _ _
  have e4 := OTPService.verifyOTP_cap now _ key c4 { r with attempts := 3 }
    g3 hexp hver (by simp [OTPService.MAX_ATTEMPTS])
  have g4 : (OTPService.verifyOTP now
      (OTPService.verifyOTP now
        (OTPService.verifyOTP now (OTPService.verifyOTP now s key c1).2 key c2).2
        key c3).2 key c4).2.get key = none := by
    rw [e4]; exact Store.get_delete_self _ _
  have e5 := OTPService.verifyOTP_notFound now _ key c5 g4
  refine ⟨by rw [e1]; rfl, by rw [e2]; rfl, by rw [e3]; rfl, g3, by rw [e4], g4,
    by rw [e5]⟩

/-- Witness for C3 (amended) on a concrete fresh record and wrong codes. -/
theorem claim_C3_witness :
    (OTPService.verifyOTP 0
        (Store.empty.set "+15550001111" ⟨"+15550001111", "482913", 300000, 0, false⟩)
        "+15550001111" "000000").1 = .mismatch 2 :=
  (claim_C3_attempt_cap 0
    (Store.empty.set "+15550001111" ⟨"+15550001111", "482913", 300000, 0, false⟩)
    "+15550001111" "000000" "000000" "000000" "000000" "000000"
    ⟨"+15550001111", "482913", 300000, 0, false⟩
    (by decide) (by decide) (by decide) (by decide)
    (by decide) (by decide) (by decide)).1

/-! ### C6: which calls increment the attempts counter -/

/-- Counterexample to C6 as stated: a verify call on an already-verified
record returns the already-used failure and leaves the record — in
particular its `attempts` counter — completely unchanged, so not every
verification call against an existing record increments `attempts`. -/
theorem claim_C6_counterexample :
    (let s0 : Store OTPRecord :=
       Store.empty.set "+15550001111" ⟨"+15550001111", "482913", 300000, 0, true⟩;
     (OTPService.verifyOTP 0 s0 "+15550001111" "482913").1 = VerifyResult.alreadyUsed ∧
     (OTPService.verifyOTP 0 s0 "+15550001111" "482913").2.get "+15550001111" =
       some ⟨"+15550001111", "482913", 300000, 0, true⟩) := by
  decide

/-- C6 amended: `attempts` is incremented exactly by the verification
calls that reach the code comparison (record present, unexpired,
unconsumed, and under the attempt cap); calls that return the expired or
max-attempts failure delete the record without incrementing, and calls
that return the already-used failure leave the store — and hence the
counter — unchanged.  Stated for both `verifyOTP` and `verifyCode`. -/
theorem claim_C6_attempts_increment :
    (∀ (now : Nat) (s : Store OTPRecord) (phone code : String) (r : OTPRecord),
        s.get phone = some r →
        ((now > r.expiresAt →
            OTPService.verifyOTP now s phone code = (.expired, s.delete phone)) ∧
         (¬ now > r.expiresAt → r.verified = true →
            OTPService.verifyOTP now s phone code = (.alreadyUsed, s)) ∧
         (¬ now > r.expiresAt → r.verified = false →
            OTPService.MAX_ATTEMPTS ≤ r.attempts →
            OTPService.verifyOTP now s phone code = (.maxAttemptsExceeded, s.delete phone)) ∧
         (¬ now > r.expiresAt → r.verified = false →
            r.attempts < OTPService.MAX_ATTEMPTS →
            ∃ r2, (OTPService.verifyOTP now s phone code).2.get phone = some r2 ∧
              r2.attempts = r.attempts + 1))) ∧
    (∀ (now : Nat) (s : Store EmailVerificationRecord) (email code : String)
        (r : EmailVerificationRecord),
        s.get (EmailVerificationService.normalizeEmail email) = some r →
        ((now > r.expiresAt →
            EmailVerificationService.verifyCode now s email code =
              (.expired, s.delete (EmailVerificationService.normalizeEmail email))) ∧
         (¬ now > r.expiresAt → r.verified = true →
            EmailVerificationService.verifyCode now s email code = (.alreadyUsed, s)) ∧
         (¬ now > r.expiresAt → r.verified = false →
            EmailVerificationService.MAX_ATTEMPTS ≤ r.attempts →
            EmailVerificationService.verifyCode now s email code =
              (.maxAttemptsExceeded, s.delete (EmailVerificationService.normalizeEmail email))) ∧
         (¬ now > r.expiresAt → r.verified = false →
            r.attempts < EmailVerificationService.MAX_ATTEMPTS →
            ∃ r2, (EmailVerificationService.verifyCode now s email code).2.get
                (EmailVerificationService.normalizeEmail email) = some r2 ∧
              r2.attempts = r.attempts + 1))) := by
  constructor
  · intro now s phone code r hs
    refine ⟨fun hexp => OTPService.verifyOTP_expired now s phone code r hs hexp,
      fun hexp hver => OTPService.verifyOTP_alreadyUsed now s phone code r hs hexp hver,
      fun hexp hver hatt => OTPService.verifyOTP_cap now s phone code r hs hexp hver hatt,
      fun hexp hver hatt => ?_⟩
    by_cases hcode : r.otp = code
    · refine ⟨{ r with attempts := r.attempts + 1, verified := true }, ?_, rfl⟩
      rw [OTPService.verifyOTP_correct now s phone code r hs hexp hver hatt hcode]
      exact Store.get_set_self _ _ _
    · refine ⟨{ r with attempts := r.attempts + 1 }, ?_, rfl⟩
      rw [OTPService.verifyOTP_wrong now s phone code r hs hexp hver hatt hcode]
      exact Store.get_set_self _ _ _
  · intro now s email code r hs
    refine ⟨fun hexp => EmailVerificationService.verifyCode_expired now s email code r hs hexp,
      fun hexp hver => EmailVerificationService.verifyCode_alreadyUsed now s email code r hs hexp hver,
      fun hexp hver hatt => EmailVerificationService.verifyCode_cap now s email code r hs hexp hver hatt,
      fun hexp hver hatt => ?_⟩
    by_cases hcode : r.code = jsTrim code
    · refine ⟨{ r with attempts := r.attempts + 1, verified := true }, ?_, rfl⟩
      rw [EmailVerificationService.verifyCode_correct now s email code r hs hexp hver hatt hcode]
      exact Store.get_set_self _ _ _
    · refine ⟨{ r with attempts := r.attempts + 1 }, ?_, rfl⟩
      rw [EmailVerificationService.verifyCode_wrong now s email code r hs hexp hver hatt hcode]
      exact Store.get_set_self _ _ _

/-- Witness for C6 (amended): the already-used branch at a concrete record. -/
theorem claim_C6_witness :
    OTPService.verifyOTP 5 (Store.empty.set "+15550002222" ⟨"+15550002222", "111111", 300000, 1, true⟩)
        "+15550002222" "111111" =
      (.alreadyUsed, Store.empty.set "+15550002222" ⟨"+15550002222", "111111", 300000, 1, true⟩) :=
  ((claim_C6_attempts_increment.1 5
      (Store.empty.set "+15550002222" ⟨"+15550002222", "111111", 300000, 1, true⟩)
      "+15550002222" "111111" ⟨"+15550002222", "111111", 300000, 1, true⟩
      (by decide)).2.1 (by decide) (by decide))

/-! ### Issuance lemmas -/

theorem OTPService.issueNew_sent (now : Nat) (s : Store OTPRecord) (phone : String)
    (k : Fin 900000) (b : Bool) (h : (OTPService.issueNew now s phone k b).1 = .sent) :
    (OTPService.issueNew now s phone k b).2.get phone =
      some ⟨phone, SMSService.generateOTP k,
            now + OTPService.OTP_EXPIRY_MINUTES * 60 * 1000, 0, false⟩ := by
  cases b with
  | false => simp [OTPService.issueNew] at h
  | true =>
    show (OTPService.issueNew now s phone k true).2.get phone = _
    unfold OTPService.issueNew
    simp only [if_true]
    exact Store.get_set_self _ _ _

theorem OTPService.issueNew_not_rateLimited (now : Nat) (s : Store OTPRecord)
    (phone : String) (k : Fin 900000) (b : Bool) (w : Nat) :
    (OTPService.issueNew now s phone k b).1 ≠ .rateLimited w := by
  cases b <;> simp [OTPService.issueNew]

theorem OTPService.cleanup_get_none_of_none {now : Nat} {s : Store OTPRecord}
    {key : String} (h : s.get key = none) :
    (OTPService.cleanupExpiredOTPs now s).get key = none := by
  simp only [Store.get, OTPService.cleanupExpiredOTPs] at h ⊢
  rw [h]

/-- If `sendOTP` reports success, the stored record is the freshly
generated one. -/
theorem OTPService.sendOTP_sent_store (now : Nat) (s : Store OTPRecord)
    (phone : String) (k : Fin 900000) (b : Bool)
    (h : (OTPService.sendOTP now s phone k b).1 = .sent) :
    (OTPService.sendOTP now s phone k b).2.get phone =
      some ⟨phone, SMSService.generateOTP k,
            now + OTPService.OTP_EXPIRY_MINUTES * 60 * 1000, 0, false⟩ := by
  unfold OTPService.sendOTP at h ⊢
  dsimp only at h ⊢
  cases hc : (OTPService.cleanupExpiredOTPs now s).get phone with
  | none =>
    rw [hc] at h
    exact OTPService.issueNew_sent now _ phone k b h
  | some r =>
    rw [hc] at h
    by_cases hexp : now > r.expiresAt
    · simp only [OTPService.isExpired, decide_eq_true_eq, hexp, if_true] at h ⊢
      exact OTPService.issueNew_sent now _ phone k b h
    · simp [OTPService.isExpired, hexp] at h

/-- When an unexpired record for the key survives the sweep, `sendOTP`
rate-limits and the store is only affected by the sweep. -/
theorem OTPService.sendOTP_rateLimited (now : Nat) (s : Store OTPRecord)
    (phone : String) (k : Fin 900000) (b : Bool) (r : OTPRecord)
    (hs : s.get phone = some r) (hexp : ¬ now > r.expiresAt) :
    OTPService.sendOTP now s phone k b =
      (.rateLimited ((r.expiresAt - now + 59999) / 60000),
       OTPService.cleanupExpiredOTPs now s) := by
  have hc := OTPService.cleanup_get_of_unexpired hs hexp
  unfold OTPService.sendOTP
  dsimp only
  rw [hc]
  simp [OTPService.isExpired, hexp]

/-! ### C4: re-issuance within TTL is rate-limited -/

/-- Counterexample to C4 as stated: issue at time 0 (TTL is 5 minutes,
so the record expires at 300000 ms), then issue again exactly at
`now = expiresAt = 300000`.  The record is not yet expired (the check is
strict), so the second call is rate-limited — but the advertised wait is
`ceil(0 / 60000) = 0` minutes, not strictly positive. -/
theorem claim_C4_counterexample :
    ((OTPService.sendOTP 0 Store.empty "+15550001111" ⟨382913, by decide⟩ true).1 =
      SendResult.sent) ∧
    ((OTPService.sendOTP 300000
        (OTPService.sendOTP 0 Store.empty "+15550001111" ⟨382913, by decide⟩ true).2
        "+15550001111" ⟨0, by decide⟩ true).1 = SendResult.rateLimited 0) := by
  decide

/-- C4 amended: a second issuance for a key whose record (stored by a
successful issuance at `t1`) has not yet expired at `t2` is rejected as
rate-limited, leaves the stored record unchanged, and reports a wait of
at most the TTL (5 minutes) that is strictly positive whenever `t2` is
strictly before `expiresAt` — at the instant `t2 = expiresAt` the
reported wait is 0. -/
theorem claim_C4_rate_limit (t1 t2 : Nat) (s : Store OTPRecord) (phone : String)
    (k1 k2 : Fin 900000) (b2 : Bool)
    (hsent : (OTPService.sendOTP t1 s phone k1 true).1 = .sent)
    (h12 : t1 ≤ t2)
    (h2e : t2 ≤ t1 + OTPService.OTP_EXPIRY_MINUTES * 60 * 1000) :
    ((OTPService.sendOTP t2 (OTPService.sendOTP t1 s phone k1 true).2 phone k2 b2).1 =
       .rateLimited ((t1 + OTPService.OTP_EXPIRY_MINUTES * 60 * 1000 - t2 + 59999) / 60000)) ∧
    ((OTPService.sendOTP t2 (OTPService.sendOTP t1 s phone k1 true).2 phone k2 b2).2.get phone =
       (OTPService.sendOTP t1 s phone k1 true).2.get phone) ∧
    ((t1 + OTPService.OTP_EXPIRY_MINUTES * 60 * 1000 - t2 + 59999) / 60000 ≤
       OTPService.OTP_EXPIRY_MINUTES) ∧
    (t2 < t1 + OTPService.OTP_EXPIRY_MINUTES * 60 * 1000 →
       1 ≤ (t1 + OTPService.OTP_EXPIRY_MINUTES * 60 * 1000 - t2 + 59999) / 60000) := by
  have hE : OTPService.OTP_EXPIRY_MINUTES * 60 * 1000 = 300000 := rfl
  have hrec := OTPService.sendOTP_sent_store t1 s phone k1 true hsent
  have hexp : ¬ t2 >
      (OTPRecord.mk phone (SMSService.generateOTP k1)
        (t1 + OTPService.OTP_EXPIRY_MINUTES * 60 * 1000) 0 false).expiresAt := by
    dsimp only
    omega
  have hRL := OTPService.sendOTP_rateLimited t2 _ phone k2 b2 _ hrec hexp
  have hkeep := OTPService.cleanup_get_of_unexpired hrec hexp
  refine ⟨by rw [hRL], ?_, ?_, ?_⟩
  · rw [hRL]
    dsimp only
    rw [hkeep, hrec]
  · rw [hE]
    have hlt : (t1 + 300000 - t2 + 59999) / 60000 < 6 :=
      (Nat.div_lt_iff_lt_mul (by norm_num)).mpr (by omega)
    omega
  · intro hstrict
    rw [hE] at hstrict ⊢
    exact (Nat.le_div_iff_mul_le (by norm_num)).mpr (by omega)

/-- Witness for C4 (amended): re-issue one millisecond after issuing. -/
theorem claim_C4_witness :
    (OTPService.sendOTP 1 (OTPService.sendOTP 0 Store.empty "+15550001111" ⟨382913, by decide⟩ true).2
        "+15550001111" ⟨0, by decide⟩ true).1 =
      .rateLimited ((0 + OTPService.OTP_EXPIRY_MINUTES * 60 * 1000 - 1 + 59999) / 60000) :=
  (claim_C4_rate_limit 0 1 Store.empty "+15550001111" ⟨382913, by decide⟩ ⟨0, by decide⟩ true
    (by decide) (by decide) (by decide)).1

/-! ### C7: rollback on delivery failure -/

theorem EmailVerificationService.cleanupCodes_get_none_of_none {now : Nat}
    {s : Store EmailVerificationRecord} {key : String} (h : s.get key = none) :
    (EmailVerificationService.cleanupExpiredCodes now s).get key = none := by
  simp only [Store.get, EmailVerificationService.cleanupExpiredCodes] at h ⊢
  rw [h]

theorem EmailVerificationService.cleanupCodes_get_none {now : Nat}
    {s : Store EmailVerificationRecord} {key : String}
    (h : ∀ r, s.get key = some r → now > r.expiresAt) :
    (EmailVerificationService.cleanupExpiredCodes now s).get key = none := by
  simp only [Store.get, EmailVerificationService.cleanupExpiredCodes] at h ⊢
  cases hs : s key with
  | none => rfl
  | some r => simp [h r hs]

theorem OTPService.cleanup_get_none_of_expired {now : Nat} {s : Store OTPRecord}
    {key : String} (h : ∀ r, s.get key = some r → now > r.expiresAt) :
    (OTPService.cleanupExpiredOTPs now s).get key = none := by
  apply OTPService.cleanup_get_none
  intro r hr
  simp [OTPService.isExpired, h r hr]

theorem OTPService.sendOTP_failed (now : Nat) (s : Store OTPRecord)
    (phone : String) (k : Fin 900000)
    (h : (OTPService.cleanupExpiredOTPs now s).get phone = none) :
    OTPService.sendOTP now s phone k false =
      (.deliveryFailed,
       ((OTPService.cleanupExpiredOTPs now s).set phone
          ⟨phone, SMSService.generateOTP k,
           now + OTPService.OTP_EXPIRY_MINUTES * 60 * 1000, 0, false⟩).delete phone) := by
  unfold OTPService.sendOTP
  dsimp only
  rw [h]
  unfold OTPService.issueNew
  simp

theorem EmailVerificationService.sendReset_failed (now : Nat)
    (s : Store EmailVerificationRecord) (email : String) (k : Fin 900000)
    (h : (EmailVerificationService.cleanupExpiredCodes now s).get
        ("reset_" ++ EmailVerificationService.normalizeEmail email) = none) :
    EmailVerificationService.sendPasswordResetCode now s email k false =
      (.deliveryFailed,
       ((EmailVerificationService.cleanupExpiredCodes now s).set
          ("reset_" ++ EmailVerificationService.normalizeEmail email)
          ⟨EmailVerificationService.normalizeEmail email,
           EmailService.generateVerificationCode k,
           now + EmailVerificationService.CODE_EXPIRY_MINUTES * 60 * 1000, 0, false, none⟩).delete
         ("reset_" ++ EmailVerificationService.normalizeEmail email)) := by
  unfold EmailVerificationService.sendPasswordResetCode
  dsimp only
  rw [h]
  unfold EmailVerificationService.issueReset
  simp

/-- C7: when the delivery adapter reports non-success, the issuance call
returns the delivery failure, the record stored for the key has been
deleted again (rollback), and a later issuance for that key is never
rate-limited by the undeliverable code.  Stated for `sendOTP` and
`sendPasswordResetCode`; the premise is that the key has no live
(unexpired) record beforehand, i.e. the call reaches delivery at all. -/
theorem claim_C7_delivery_rollback :
    (∀ (now : Nat) (s : Store OTPRecord) (phone : String) (k : Fin 900000),
        (∀ r, s.get phone = some r → now > r.expiresAt) →
        (OTPService.sendOTP now s phone k false).1 = .deliveryFailed ∧
        (OTPService.sendOTP now s phone k false).2.get phone = none ∧
        (∀ (t2 : Nat) (k2 : Fin 900000) (b2 : Bool) (w : Nat),
            (OTPService.sendOTP t2 (OTPService.sendOTP now s phone k false).2
               phone k2 b2).1 ≠ .rateLimited w)) ∧
    (∀ (now : Nat) (s : Store EmailVerificationRecord) (email : String) (k : Fin 900000),
        (∀ r, s.get ("reset_" ++ EmailVerificationService.normalizeEmail email) = some r →
           now > r.expiresAt) →
        (EmailVerificationService.sendPasswordResetCode now s email k false).1 =
          .deliveryFailed ∧
        (EmailVerificationService.sendPasswordResetCode now s email k false).2.get
          ("reset_" ++ EmailVerificationService.normalizeEmail email) = none) := by
  constructor
  · intro now s phone k hpre
    have hc := OTPService.cleanup_get_none_of_expired hpre
    have hfail := OTPService.sendOTP_failed now s phone k hc
    have hnone : (OTPService.sendOTP now s phone k false).2.get phone = none := by
      rw [hfail]
      exact Store.get_delete_self _ _
    refine ⟨by rw [hfail], hnone, ?_⟩
    intro t2 k2 b2 w
    generalize hS : (OTPService.sendOTP now s phone k false).2 = S at hnone
    have hc2 : (OTPService.cleanupExpiredOTPs t2 S).get phone = none :=
      OTPService.cleanup_get_none_of_none hnone
    unfold OTPService.sendOTP
    dsimp only
    rw [hc2]
    exact OTPService.issueNew_not_rateLimited t2 _ phone k2 b2 w
  · intro now s email k hpre
    have hc := EmailVerificationService.cleanupCodes_get_none hpre
    have hfail := EmailVerificationService.sendReset_failed now s email k hc
    refine ⟨by rw [hfail], ?_⟩
    rw [hfail]
    exact Store.get_delete_self _ _

/-- Witness for C7 on the empty store. -/
theorem claim_C7_witness :
    (OTPService.sendOTP 0 Store.empty "+15550001111" ⟨0, by decide⟩ false).1 =
      .deliveryFailed :=
  (claim_C7_delivery_rollback.1 0 Store.empty "+15550001111" ⟨0, by decide⟩
    (fun r hr => by simp [Store.empty, Store.get] at hr)).1

/-! ### C8: shape of the freshly issued record and code -/

theorem toDigitsCore_step (b f n : Nat) (l : List Char) :
    Nat.toDigitsCore b (f + 1) n l =
      if n / b = 0 then Nat.digitChar (n % b) :: l
      else Nat.toDigitsCore b f (n / b) (Nat.digitChar (n % b) :: l) := rfl

theorem toDigitsCore_six (f n : Nat) (l : List Char) (hf : 6 ≤ f)
    (h1 : 100000 ≤ n) (h2 : n < 1000000) :
    Nat.toDigitsCore 10 f n l =
      Nat.digitChar (n / 100000 % 10) :: Nat.digitChar (n / 10000 % 10) ::
      Nat.digitChar (n / 1000 % 10) :: Nat.digitChar (n / 100 % 10) ::
      Nat.digitChar (n / 10 % 10) :: Nat.digitChar (n % 10) :: l := by
  obtain ⟨g, rfl⟩ : ∃ g, f = g + 1 + 1 + 1 + 1 + 1 + 1 := ⟨f - 6, by omega⟩
  have e1 : n / 10 / 10 = n / 100 := by rw [Nat.div_div_eq_div_mul]
  have e2 : n / 100 / 10 = n / 1000 := by rw [Nat.div_div_eq_div_mul]
  have e3 : n / 1000 / 10 = n / 10000 := by rw [Nat.div_div_eq_div_mul]
  have e4 : n / 10000 / 10 = n / 100000 := by rw [Nat.div_div_eq_div_mul]
  have e5 : n / 100000 / 10 = n / 1000000 := by rw [Nat.div_div_eq_div_mul]
  have z1 : ¬ n / 10 = 0 := by
    have : 10000 ≤ n / 10 := Nat.le_div_iff_mul_le (by norm_num) |>.mpr (by omega)
    omega
  have z2 : ¬ n / 100 = 0 := by
    have : 1000 ≤ n / 100 := Nat.le_div_iff_mul_le (by norm_num) |>.mpr (by omega)
    omega
  have z3 : ¬ n / 1000 = 0 := by
    have : 100 ≤ n / 1000 := Nat.le_div_iff_mul_le (by norm_num) |>.mpr (by omega)
    omega
  have z4 : ¬ n / 10000 = 0 := by
    have : 10 ≤ n / 10000 := Nat.le_div_iff_mul_le (by norm_num) |>.mpr (by omega)
    omega
  have z5 : ¬ n / 100000 = 0 := by
    have : 1 ≤ n / 100000 := Nat.le_div_iff_mul_le (by norm_num) |>.mpr (by omega)
    omega
  have z6 : n / 1000000 = 0 := Nat.div_eq_of_lt h2
  rw [toDigitsCore_step, if_neg z1]
  rw [toDigitsCore_step, e1, if_neg z2]
  rw [toDigitsCore_step, e2, if_neg z3]
  rw [toDigitsCore_step, e3, if_neg z4]
  rw [toDigitsCore_step, e4, if_neg z5]
  rw [toDigitsCore_step, e5, if_pos z6]

/-- In the six-digit range, `Nat.repr` is the literal six-character
decimal rendering. -/
theorem repr_six (n : Nat) (h1 : 100000 ≤ n) (h2 : n < 1000000) :
    Nat.repr n = ⟨[Nat.digitChar (n / 100000 % 10), Nat.digitChar (n / 10000 % 10),
      Nat.digitChar (n / 1000 % 10), Nat.digitChar (n / 100 % 10),
      Nat.digitChar (n / 10 % 10), Nat.digitChar (n % 10)]⟩ := by
  unfold Nat.repr Nat.toDigits
  rw [toDigitsCore_six (n + 1) n [] (by omega) h1 h2]
  rfl

theorem digitChar_isDigit (d : Nat) (hd : d < 10) : (Nat.digitChar d).isDigit = true := by
  interval_cases d <;> rfl

theorem repr_six_length (n : Nat) (h1 : 100000 ≤ n) (h2 : n < 1000000) :
    (Nat.repr n).length = 6 := by
  rw [repr_six n h1 h2]
  rfl

theorem repr_six_digits (n : Nat) (h1 : 100000 ≤ n) (h2 : n < 1000000) :
    ∀ c ∈ (Nat.repr n).data, c.isDigit = true := by
  rw [repr_six n h1 h2]
  intro c hc
  simp only [String.data, List.mem_cons, List.not_mem_nil, or_false] at hc
  rcases hc with h | h | h | h | h | h <;>
    (rw [h]; exact digitChar_isDigit _ (Nat.mod_lt _ (by norm_num)))

/-- C8: a successful issuance stores a record with `attempts = 0`,
`verified = false`, `expiresAt = now + TTL`, and the generated code;
the generators (`SMSService.generateOTP` and
`EmailService.generateVerificationCode`) always render a number in
`[100000, 999999]` as a 6-character decimal-digit string. -/
theorem claim_C8_issued_record :
    (∀ (now : Nat) (s : Store OTPRecord) (phone : String) (k : Fin 900000) (b : Bool),
        (OTPService.sendOTP now s phone k b).1 = .sent →
        (OTPService.sendOTP now s phone k b).2.get phone =
          some ⟨phone, SMSService.generateOTP k,
                now + OTPService.OTP_EXPIRY_MINUTES * 60 * 1000, 0, false⟩) ∧
    (∀ k : Fin 900000,
        SMSService.generateOTP k = Nat.repr (100000 + k.val) ∧
        EmailService.generateVerificationCode k = Nat.repr (100000 + k.val) ∧
        100000 ≤ 100000 + k.val ∧ 100000 + k.val ≤ 999999 ∧
        (SMSService.generateOTP k).length = 6 ∧
        (∀ c ∈ (SMSService.generateOTP k).data, c.isDigit = true) ∧
        (EmailService.generateVerificationCode k).length = 6 ∧
        (∀ c ∈ (EmailService.generateVerificationCode k).data, c.isDigit = true)) := by
  refine ⟨OTPService.sendOTP_sent_store, ?_⟩
  intro k
  have hk := k.isLt
  have h1 : 100000 ≤ 100000 + k.val := by omega
  have h2 : 100000 + k.val < 1000000 := by omega
  exact ⟨rfl, rfl, h1, by omega, repr_six_length _ h1 h2, repr_six_digits _ h1 h2,
    repr_six_length _ h1 h2, repr_six_digits _ h1 h2⟩

/-- Witness for C8: a concrete successful issuance on the empty store. -/
theorem claim_C8_witness :
    (OTPService.sendOTP 0 Store.empty "+15550001111" ⟨382913, by decide⟩ true).2.get
        "+15550001111" =
      some ⟨"+15550001111", SMSService.generateOTP ⟨382913, by decide⟩,
            0 + OTPService.OTP_EXPIRY_MINUTES * 60 * 1000, 0, false⟩ :=
  claim_C8_issued_record.1 0 Store.empty "+15550001111" ⟨382913, by decide⟩ true (by decide)
